import Mathlib

/-!
Shallow embedding of the alert-notification subsystem of the Kavach backend
(`src/backend/main.py`) and verification of its specified properties.

Modelling conventions:
* JSON / Python numbers carried by risk metrics are modelled as `ℚ`;
  the integer thresholds of `AlertSettings` (pydantic `int` fields) are `ℤ`.
* Python `datetime` values are modelled as rational timestamps measured in
  minutes, so `timedelta(minutes=10)` becomes `+ 10`.
* The process-wide mutable globals (`alert_history`, `user_alert_settings`,
  `otp_storage`) are threaded explicitly: each endpoint function takes the
  relevant piece of state and returns the updated piece together with the
  response value.  Settings / OTP storage is per-user, so a single
  `Option`-valued slot stands for the entry of the user under consideration.
* The external send channels (Resend e-mail, Twilio SMS) are oracles: a
  `Bool`-valued function says whether a given attempt succeeds, and an
  `Option Unit` argument (`none` = the underlying client raised an
  exception) models the `try/except` collapse inside the send helpers.
-/

namespace Kavach

/-- Alert severity labels, the `"WATCH" / "WARNING" / "EMERGENCY"` strings of
the source. -/
inductive AlertLevel where
  | WATCH
  | WARNING
  | EMERGENCY
  deriving Repr, DecidableEq, BEq

/-- Alert type labels: `"Landslide"`, `"Flood"`, `"Heavy Rainfall"`. -/
inductive AlertType where
  | Landslide
  | Flood
  | HeavyRainfall
  deriving Repr, DecidableEq, BEq

/-- The alert record built inside `check_alerts` (main.py lines 807-816,
823-832, 839-848). -/
structure Alert where
  id : Nat
  type : AlertType
  level : AlertLevel
  value : ℚ
  threshold : ℤ
  message : String
  location : String
  timestamp : String
  deriving Repr, DecidableEq

/-- The `AlertSettings` pydantic schema (main.py lines 73-83); this is the
shape of every value stored in `user_alert_settings`, since the only writer
is `save_alert_settings`, which stores `settings.dict()`. -/
structure AlertSettings where
  email : String
  phone : String
  landslide_threshold : ℤ
  flood_threshold : ℤ
  rainfall_threshold : ℤ
  enable_email : Bool
  enable_sms : Bool
  alert_location : String
  alert_lat : Option ℚ
  alert_lng : Option ℚ
  deriving Repr, DecidableEq

/-- The metric readings extracted from the request body of `/alert/check`
(main.py lines 786-789). -/
structure CheckInput where
  landslide_risk : ℚ
  flood_risk : ℚ
  rainfall : ℚ
  location : String
  deriving Repr, DecidableEq

/-- Response of `check_alerts`: the produced alerts, the updated global
history, the two per-channel delivery flags, and the optional `"message"`
field (present only in the `"No settings configured"` short-circuit). -/
structure CheckResult where
  alerts : List Alert
  history : List Alert
  email_sent : Bool
  sms_sent : Bool
  message : Option String
  deriving Repr, DecidableEq

/-- `"EMERGENCY" if landslide_risk >= 85 else "WARNING" if landslide_risk
>= 70 else "WATCH"` (main.py line 806). -/
def landslideLevel (v : ℚ) : AlertLevel :=
  if v ≥ 85 then .EMERGENCY else if v ≥ 70 then .WARNING else .WATCH

/-- `"EMERGENCY" if flood_risk >= 80 else "WARNING" if flood_risk >= 60
else "WATCH"` (main.py line 822). -/
def floodLevel (v : ℚ) : AlertLevel :=
  if v ≥ 80 then .EMERGENCY else if v ≥ 60 then .WARNING else .WATCH

/-- `"EMERGENCY" if rainfall >= 150 else "WARNING" if rainfall >= 100 else
"WATCH"` (main.py line 838). -/
def rainfallLevel (v : ℚ) : AlertLevel :=
  if v ≥ 150 then .EMERGENCY else if v ≥ 100 then .WARNING else .WATCH

/-- The fixed severity bands per alert type, exactly the three inline
conditional expressions above, keyed by the alert type they are used for. -/
def severityFor : AlertType → ℚ → AlertLevel
  | .Landslide, v => landslideLevel v
  | .Flood, v => floodLevel v
  | .HeavyRainfall, v => rainfallLevel v

/-- The three sequential threshold checks of `check_alerts` (main.py lines
801-850).  State is the pair `(alerts, alert_history)`; each firing metric
appends one alert to both, and the alert id is `len(alert_history) + 1`
computed before that append. -/
def evalAlerts (history : List Alert) (st : AlertSettings) (input : CheckInput)
    (current_time : String) : List Alert × List Alert :=
  let acc0 : List Alert × List Alert := ([], history)
  let acc1 :=
    if input.landslide_risk ≥ (st.landslide_threshold : ℚ) then
      let a : Alert :=
        { id := acc0.2.length + 1
          type := .Landslide
          level := landslideLevel input.landslide_risk
          value := input.landslide_risk
          threshold := st.landslide_threshold
          message := "Landslide risk at " ++ toString input.landslide_risk
            ++ "% exceeds threshold"
          location := input.location
          timestamp := current_time }
      (acc0.1 ++ [a], acc0.2 ++ [a])
    else acc0
  let acc2 :=
    if input.flood_risk ≥ (st.flood_threshold : ℚ) then
      let a : Alert :=
        { id := acc1.2.length + 1
          type := .Flood
          level := floodLevel input.flood_risk
          value := input.flood_risk
          threshold := st.flood_threshold
          message := "Flood risk at " ++ toString input.flood_risk
            ++ "% exceeds threshold"
          location := input.location
          timestamp := current_time }
      (acc1.1 ++ [a], acc1.2 ++ [a])
    else acc1
  let acc3 :=
    if input.rainfall ≥ (st.rainfall_threshold : ℚ) then
      let a : Alert :=
        { id := acc2.2.length + 1
          type := .HeavyRainfall
          level := rainfallLevel input.rainfall
          value := input.rainfall
          threshold := st.rainfall_threshold
          message := "Rainfall at " ++ toString input.rainfall
            ++ "mm exceeds threshold"
          location := input.location
          timestamp := current_time }
      (acc2.1 ++ [a], acc2.2 ++ [a])
    else acc2
  acc3

/-- One iteration of the notification loop of `check_alerts` (main.py lines
861-882).  `acc` is the pair `(email_sent, sms_sent)`; a channel is
attempted only when its enable flag is set and the contact string is truthy
(non-empty), and a successful attempt latches the flag to `true`. -/
def notifyStep (st : AlertSettings) (emailSend smsSend : String → Alert → Bool)
    (acc : Bool × Bool) (a : Alert) : Bool × Bool :=
  let e :=
    if st.enable_email && (st.email != "") then
      if emailSend st.email a then true else acc.1
    else acc.1
  let s :=
    if st.enable_sms && (st.phone != "") then
      if smsSend st.phone a then true else acc.2
    else acc.2
  (e, s)

/-- `check_alerts` (main.py lines 783-893).  `settings` is the entry of
`user_alert_settings` for the requesting user (`none` models the falsy empty
dict returned by `.get(user_id, {})`); `emailSend`/`smsSend` are the
delivery oracles standing for `send_email_alert`/`send_sms_alert`. -/
def check_alerts (history : List Alert) (settings : Option AlertSettings)
    (input : CheckInput) (current_time : String)
    (emailSend smsSend : String → Alert → Bool) : CheckResult :=
  match settings with
  | none =>
      { alerts := []
        history := history
        email_sent := false
        sms_sent := false
        message := some "No settings configured" }
  | some st =>
      let p := evalAlerts history st input current_time
      let flags := p.1.foldl (notifyStep st emailSend smsSend) (false, false)
      { alerts := p.1
        history := p.2
        email_sent := flags.1
        sms_sent := flags.2
        message := none }

/-- Python list slicing `l[start:]` for an integer `start`, as used by
`get_alert_history`: a negative start counts from the end (clamped at 0), a
non-negative start drops that many leading elements. -/
def pySliceFrom (l : List Alert) (start : ℤ) : List Alert :=
  if start < 0 then l.drop (l.length - (-start).toNat) else l.drop start.toNat

/-- `get_alert_history` (main.py lines 895-901):
`alert_history[-limit:] if alert_history else []`. -/
def get_alert_history (history : List Alert) (limit : ℤ) : List Alert :=
  if history ≠ [] then pySliceFrom history (-limit) else []

/-- `clear_alert_history` (main.py lines 903-908): resets the global history
to the empty list. -/
def clear_alert_history (_history : List Alert) : List Alert := []

/-- `send_email_alert` (main.py lines 633-684).  The whole body is wrapped
in `try/except → return False`; a missing Resend API key returns `False`
early, otherwise the outcome of the external `resend.Emails.send` call
decides the result (`none` = the call raised). -/
def send_email_alert (resend_api_key : String) (sendResult : Option Unit) :
    Bool :=
  if resend_api_key = "" then false
  else
    match sendResult with
    | some _ => true
    | none => false

/-- The Twilio credentials triple read from the environment. -/
structure TwilioConfig where
  sid : String
  token : String
  phone : String
  deriving Repr, DecidableEq

/-- `all([twilio_sid, twilio_token, twilio_phone])`: every credential string
is truthy (non-empty). -/
def twilioConfigured (c : TwilioConfig) : Bool :=
  (c.sid != "") && (c.token != "") && (c.phone != "")

/-- `send_sms_alert` (main.py lines 686-749).  If Twilio is configured the
external `messages.create` outcome decides the result (`none` = raised,
which is caught and falls through to the `return False` at the end);
unconfigured Twilio falls through to `return False` as well. -/
def send_sms_alert (cfg : TwilioConfig) (twilioResult : Option Unit) : Bool :=
  if twilioConfigured cfg then
    match twilioResult with
    | some _ => true
    | none => false
  else false

/-- The per-user record of `otp_storage` (main.py line 950 and 966-971). -/
structure OtpRecord where
  phone : String
  otp : String
  expiry : ℚ
  verified : Bool
  deriving Repr, DecidableEq

/-- The four distinct response values of `verify_otp`; each constructor
stands for one of the literal response dicts of main.py lines 1011-1032:
`NotFound` = "No OTP found. Please request a new one.",
`Expired` = "OTP expired. Please request a new one.",
`Mismatch` = "Invalid OTP. Please try again.",
`Success phone` = the success response carrying the stored phone. -/
inductive VerifyResult where
  | NotFound
  | Expired
  | Mismatch
  | Success (phone : String)
  deriving Repr, DecidableEq

/-- `verify_otp` (main.py lines 1005-1032).  `storage` is the user's entry
of `otp_storage`; the returned option is that entry after the call. -/
def verify_otp (storage : Option OtpRecord) (now : ℚ) (otp_entered : String) :
    VerifyResult × Option OtpRecord :=
  match storage with
  | none => (.NotFound, none)
  | some r =>
      if now > r.expiry then (.Expired, none)
      else if r.otp ≠ otp_entered then (.Mismatch, some r)
      else (.Success r.phone, some { r with verified := true })

/-- `random.randint(lo, hi)` as a function of an arbitrary seed: some value
of the inclusive range `[lo, hi]`, every value of which is reachable. -/
def randint (lo hi seed : Nat) : Nat := lo + seed % (hi + 1 - lo)

/-- `str(random.randint(100000, 999999))` (main.py line 962). -/
def generate_otp (seed : Nat) : String := toString (randint 100000 999999 seed)

/-- The four distinct response values of `send_verification_otp`
(main.py lines 958-1003):
`emptyPhone` = "Phone number is required",
`sent phone` = the success ack,
`providerUnconfigured` = "SMS service not configured. ...",
`sendFailed` = "Failed to send verification code. ..." (exception path). -/
inductive IssueResult where
  | emptyPhone
  | sent (phone : String)
  | providerUnconfigured
  | sendFailed
  deriving Repr, DecidableEq

/-- `send_verification_otp` (main.py lines 952-1003).  The fresh record is
stored (overwriting `storage`) before Twilio is consulted; `twilioOk`
models whether `messages.create` returns without raising. -/
def send_verification_otp (storage : Option OtpRecord) (phone : String)
    (now : ℚ) (seed : Nat) (cfg : TwilioConfig) (twilioOk : Bool) :
    IssueResult × Option OtpRecord :=
  if phone = "" then (.emptyPhone, storage)
  else
    let otp := generate_otp seed
    let record : OtpRecord :=
      { phone := phone, otp := otp, expiry := now + 10, verified := false }
    if twilioConfigured cfg then
      if twilioOk then (.sent phone, some record)
      else (.sendFailed, some record)
    else (.providerUnconfigured, some record)

/-! ### Helper lemmas -/

/-- The history produced by `evalAlerts` is the input history with the
produced alerts appended, in order. -/
lemma evalAlerts_history (h : List Alert) (st : AlertSettings)
    (input : CheckInput) (t : String) :
    (evalAlerts h st input t).2 = h ++ (evalAlerts h st input t).1 := by
  unfold evalAlerts
  split_ifs <;> simp

/-- For a configured user, `check_alerts` returns exactly the alerts and
history computed by `evalAlerts`, with no `"message"` tag. -/
lemma check_alerts_some (h : List Alert) (st : AlertSettings)
    (input : CheckInput) (t : String) (e s : String → Alert → Bool) :
    check_alerts h (some st) input t e s =
      { alerts := (evalAlerts h st input t).1
        history := (evalAlerts h st input t).2
        email_sent := ((evalAlerts h st input t).1.foldl
          (notifyStep st e s) (false, false)).1
        sms_sent := ((evalAlerts h st input t).1.foldl
          (notifyStep st e s) (false, false)).2
        message := none } := rfl

/-- One notification step latches each flag with "the attempt was gated in
and succeeded". -/
lemma notifyStep_eq (st : AlertSettings) (e s : String → Alert → Bool)
    (acc : Bool × Bool) (a : Alert) :
    notifyStep st e s acc a =
      (acc.1 || (st.enable_email && (st.email != "") && e st.email a),
       acc.2 || (st.enable_sms && (st.phone != "") && s st.phone a)) := by
  unfold notifyStep
  cases hg1 : st.enable_email && (st.email != "") <;>
    cases hg2 : st.enable_sms && (st.phone != "") <;>
    cases he : e st.email a <;> cases hs : s st.phone a <;>
    simp [hg1, hg2, he, hs]

/-- The notification fold computes, per channel, the disjunction of the
initial flag with "some alert's attempt was gated in and succeeded". -/
lemma notify_foldl (st : AlertSettings) (e s : String → Alert → Bool) :
    ∀ (l : List Alert) (acc : Bool × Bool),
      l.foldl (notifyStep st e s) acc =
        (acc.1 || l.any (fun a => st.enable_email && (st.email != "")
            && e st.email a),
         acc.2 || l.any (fun a => st.enable_sms && (st.phone != "")
            && s st.phone a)) := by
  intro l
  induction l with
  | nil => intro acc; simp
  | cons a l ih =>
      intro acc
      rw [List.foldl_cons, notifyStep_eq, ih]
      simp only [List.any_cons, Bool.or_assoc]

/-! ### Claim theorems -/

/-- C1: with settings present, each of the three metrics contributes exactly
one alert of its type when its value reaches the user's configured
threshold for it and none otherwise, so a call emits between zero and three
alerts. -/
theorem alerts_per_metric (h : List Alert) (st : AlertSettings)
    (input : CheckInput) (t : String) (e s : String → Alert → Bool) :
    ((check_alerts h (some st) input t e s).alerts.countP
        (fun a => a.type == AlertType.Landslide)
      = if input.landslide_risk ≥ (st.landslide_threshold : ℚ) then 1 else 0)
    ∧ ((check_alerts h (some st) input t e s).alerts.countP
        (fun a => a.type == AlertType.Flood)
      = if input.flood_risk ≥ (st.flood_threshold : ℚ) then 1 else 0)
    ∧ ((check_alerts h (some st) input t e s).alerts.countP
        (fun a => a.type == AlertType.HeavyRainfall)
      = if input.rainfall ≥ (st.rainfall_threshold : ℚ) then 1 else 0)
    ∧ (check_alerts h (some st) input t e s).alerts.length ≤ 3 := by
  rw [check_alerts_some]
  unfold evalAlerts
  split_ifs <;> simp [List.countP_cons] <;> (repeat' apply And.intro) <;> rfl

/-- The derived boolean equality on severity levels is reflexive. -/
lemma level_beq_self (l : AlertLevel) : (l == l) = true := by
  cases l <;> rfl

/-- Settings with a landslide threshold of 10, for the band-independence
example of the spec (value 72, threshold 10 ⇒ WARNING). -/
def exampleSettings10 : AlertSettings :=
  { email := "", phone := "", landslide_threshold := 10,
    flood_threshold := 60, rainfall_threshold := 100,
    enable_email := false, enable_sms := false, alert_location := "",
    alert_lat := none, alert_lng := none }

/-- A reading with landslide risk 72 and the other metrics at 0. -/
def exampleInput72 : CheckInput :=
  { landslide_risk := 72, flood_risk := 0, rainfall := 0,
    location := "Example" }

/-- C2: every produced alert carries the severity computed from the fixed
absolute bands of its type, for every configured threshold (the threshold
only gates firing); the bands are closed on their lower edges, and the
spec's examples hold: landslide 72 with threshold 10 is WARNING, flood
exactly 80 is EMERGENCY. -/
theorem severity_fixed_bands (h : List Alert) (st : AlertSettings)
    (input : CheckInput) (t : String) (e s : String → Alert → Bool) :
    ((check_alerts h (some st) input t e s).alerts.all
      (fun a => a.level == severityFor a.type a.value)) = true
    ∧ severityFor .Landslide 85 = .EMERGENCY
    ∧ severityFor .Landslide 72 = .WARNING
    ∧ severityFor .Landslide 70 = .WARNING
    ∧ severityFor .Flood 80 = .EMERGENCY
    ∧ severityFor .Flood 60 = .WARNING
    ∧ severityFor .HeavyRainfall 150 = .EMERGENCY
    ∧ severityFor .HeavyRainfall 100 = .WARNING
    ∧ ((check_alerts [] (some exampleSettings10) exampleInput72 "t"
        (fun _ _ => false) (fun _ _ => false)).alerts.map (fun a => a.level)
      = [.WARNING]) := by
  refine ⟨?_, by decide, by decide, by decide, by decide, by decide,
    by decide, by decide, by rfl⟩
  rw [check_alerts_some]
  unfold evalAlerts
  split_ifs <;> simp [severityFor, level_beq_self]

/-- C4: a channel is attempted for an alert exactly when its enable flag is
set and its contact string is non-empty, and each returned flag is true iff
at least one alert of the call was delivered successfully over that
channel. -/
theorem notification_flags (h : List Alert) (st : AlertSettings)
    (input : CheckInput) (t : String) (e s : String → Alert → Bool) :
    ((check_alerts h (some st) input t e s).email_sent
      = (check_alerts h (some st) input t e s).alerts.any
          (fun a => st.enable_email && (st.email != "") && e st.email a))
    ∧ ((check_alerts h (some st) input t e s).sms_sent
      = (check_alerts h (some st) input t e s).alerts.any
          (fun a => st.enable_sms && (st.phone != "") && s st.phone a)) := by
  rw [check_alerts_some]
  constructor <;> simp [notify_foldl]

/-- C6: with no stored settings the call short-circuits: empty alert list
tagged with the "No settings configured" message, history untouched, both
delivery flags false, the oracles never consulted; any configured user gets
`message = none`, so the two empty-list responses are distinguishable. -/
theorem unconfigured_short_circuit (h : List Alert) (input : CheckInput)
    (t : String) (e s : String → Alert → Bool) (st : AlertSettings) :
    check_alerts h none input t e s =
      { alerts := [], history := h, email_sent := false, sms_sent := false,
        message := some "No settings configured" }
    ∧ (check_alerts h (some st) input t e s).message = none := ⟨rfl, rfl⟩

/-- C3: OTP verification as a state machine: no record ⇒ `NotFound`;
expired ⇒ `Expired` and the record is deleted; wrong code before expiry ⇒
`Mismatch` with the record left unchanged; matching code before expiry ⇒
success carrying the stored phone, with `verified` set and the record kept.
-/
theorem verify_otp_state_machine (now : ℚ) (c : String) (r : OtpRecord) :
    verify_otp none now c = (.NotFound, none)
    ∧ (now > r.expiry → verify_otp (some r) now c = (.Expired, none))
    ∧ (¬ now > r.expiry → r.otp ≠ c →
        verify_otp (some r) now c = (.Mismatch, some r))
    ∧ (¬ now > r.expiry → r.otp = c →
        verify_otp (some r) now c =
          (.Success r.phone, some { r with verified := true })) := by
  refine ⟨rfl, fun h1 => ?_, fun h1 h2 => ?_, fun h1 h2 => ?_⟩
  · simp [verify_otp, h1]
  · simp [verify_otp, h1, h2]
  · simp [verify_otp, h1, h2]

/-- A stored OTP record used to instantiate the verification theorem. -/
def wOtpRecord : OtpRecord :=
  { phone := "9163615366", otp := "123456", expiry := 10, verified := false }

/-- Witness for C3: the four branches of the state machine at concrete
inputs (expiry 10; verification times 11, 5, 5). -/
theorem verify_otp_state_machine_witness :
    verify_otp none 0 "123456" = (.NotFound, none)
    ∧ verify_otp (some wOtpRecord) 11 "123456" = (.Expired, none)
    ∧ verify_otp (some wOtpRecord) 5 "654321" = (.Mismatch, some wOtpRecord)
    ∧ verify_otp (some wOtpRecord) 5 "123456" =
        (.Success "9163615366", some { wOtpRecord with verified := true }) :=
  ⟨(verify_otp_state_machine 0 "123456" wOtpRecord).1,
   (verify_otp_state_machine 11 "123456" wOtpRecord).2.1 (by decide),
   (verify_otp_state_machine 5 "654321" wOtpRecord).2.2.1 (by decide)
     (by decide),
   (verify_otp_state_machine 5 "123456" wOtpRecord).2.2.2 (by decide) rfl⟩

/-- Settings with both channels enabled and non-empty contacts, for the
delivery-isolation scenario. -/
def demoSettings : AlertSettings :=
  { email := "user@example.com", phone := "9163615366",
    landslide_threshold := 70, flood_threshold := 60,
    rainfall_threshold := 100, enable_email := true, enable_sms := true,
    alert_location := "", alert_lat := none, alert_lng := none }

/-- A reading that fires exactly the landslide alert. -/
def demoInput : CheckInput :=
  { landslide_risk := 90, flood_risk := 0, rainfall := 0, location := "Demo" }

/-- A fully configured Twilio credentials triple. -/
def demoTwilio : TwilioConfig :=
  { sid := "AC1", token := "tok", phone := "+1000" }

/-- C5: channel attempts are independent and isolated: the produced alerts
and history do not depend on the delivery oracles at all; an exception in
either send helper is collapsed to `false`; and in a concrete call where
the e-mail client raises while the SMS client succeeds, the response is
`email_sent = false`, `sms_sent = true` with the alert list populated. -/
theorem channel_isolation (h : List Alert) (st : AlertSettings)
    (input : CheckInput) (t : String)
    (e1 s1 e2 s2 : String → Alert → Bool) (k : String) (cfg : TwilioConfig) :
    ((check_alerts h (some st) input t e1 s1).alerts
      = (check_alerts h (some st) input t e2 s2).alerts)
    ∧ ((check_alerts h (some st) input t e1 s1).history
      = (check_alerts h (some st) input t e2 s2).history)
    ∧ send_email_alert k none = false
    ∧ send_sms_alert cfg none = false
    ∧ ((check_alerts [] (some demoSettings) demoInput "t"
        (fun _ _ => send_email_alert "rk" none)
        (fun _ _ => send_sms_alert demoTwilio (some ()))).email_sent = false)
    ∧ ((check_alerts [] (some demoSettings) demoInput "t"
        (fun _ _ => send_email_alert "rk" none)
        (fun _ _ => send_sms_alert demoTwilio (some ()))).sms_sent = true)
    ∧ ((check_alerts [] (some demoSettings) demoInput "t"
        (fun _ _ => send_email_alert "rk" none)
        (fun _ _ => send_sms_alert demoTwilio (some ()))).alerts.length
        = 1) := by
  refine ⟨rfl, rfl, ?_, ?_, by rfl, by rfl, by rfl⟩
  · unfold send_email_alert; split_ifs <;> rfl
  · unfold send_sms_alert; split_ifs <;> rfl

/-- A concrete alert for instantiating the history operations. -/
def wAlert : Alert :=
  { id := 1, type := .Landslide, level := .EMERGENCY, value := 90,
    threshold := 70, message := "m", location := "L", timestamp := "t" }

/-- C7 counterexample: at limit `N = 0` with a non-empty history,
`alert_history[-limit:]` is `alert_history[0:]`, the whole log — more than
`N` alerts — so "for every limit N ≥ 0, at most N alerts" fails. -/
theorem history_limit_zero_cex :
    get_alert_history [wAlert] 0 = [wAlert]
    ∧ ¬ (get_alert_history [wAlert] 0).length ≤ 0 := by
  have h1 : get_alert_history [wAlert] 0 = [wAlert] := rfl
  exact ⟨h1, by rw [h1]; simp⟩

/-- C7 (amended): the history grows by exactly the number of alerts of the
call; clear resets it to empty; and for every limit N ≥ 1, get history
returns at most N alerts, namely the most recent ones in oldest-first
order (the suffix of the log). -/
theorem history_ops (h : List Alert) (settings : Option AlertSettings)
    (input : CheckInput) (t : String) (e s : String → Alert → Bool)
    (limit : ℤ) :
    ((check_alerts h settings input t e s).history.length
      = h.length + (check_alerts h settings input t e s).alerts.length)
    ∧ clear_alert_history h = []
    ∧ (1 ≤ limit →
        (get_alert_history h limit).length ≤ limit.toNat
        ∧ get_alert_history h limit = h.drop (h.length - limit.toNat)) := by
  refine ⟨?_, rfl, fun hl => ?_⟩
  · cases settings with
    | none => simp [check_alerts]
    | some st => rw [check_alerts_some]; simp [evalAlerts_history]
  · unfold get_alert_history pySliceFrom
    have hneg : -limit < 0 := by omega
    by_cases hh : h = []
    · subst hh; simp
    · rw [if_pos hh, if_pos hneg]
      have htn : (- -limit).toNat = limit.toNat := by omega
      rw [htn]
      refine ⟨?_, rfl⟩
      rw [List.length_drop]
      omega

/-- Witness for C7: the limit-1 slice of a one-alert history. -/
theorem history_ops_witness :
    ((check_alerts [] none exampleInput72 "t" (fun _ _ => false)
        (fun _ _ => false)).history.length
      = ([] : List Alert).length + (check_alerts [] none exampleInput72 "t"
          (fun _ _ => false) (fun _ _ => false)).alerts.length)
    ∧ clear_alert_history [wAlert] = []
    ∧ ((get_alert_history [wAlert] 1).length ≤ (1 : ℤ).toNat
        ∧ get_alert_history [wAlert] 1
          = [wAlert].drop ([wAlert].length - (1 : ℤ).toNat)) :=
  ⟨(history_ops [] none exampleInput72 "t" (fun _ _ => false)
      (fun _ _ => false) 1).1,
   (history_ops [wAlert] none exampleInput72 "t" (fun _ _ => false)
      (fun _ _ => false) 1).2.1,
   (history_ops [wAlert] none exampleInput72 "t" (fun _ _ => false)
      (fun _ _ => false) 1).2.2 (by decide)⟩

/-- C9 (amended): within one call the produced alerts carry the consecutive
ids `history length + 1, +2, ...`, and the history is extended by exactly
those alerts — so ids increase monotonically across the process lifetime as
long as the history is never cleared. -/
theorem alert_ids_consecutive (h : List Alert) (st : AlertSettings)
    (input : CheckInput) (t : String) (e s : String → Alert → Bool) :
    ((check_alerts h (some st) input t e s).alerts.map (fun a => a.id)
      = List.range' (h.length + 1)
          (check_alerts h (some st) input t e s).alerts.length)
    ∧ ((check_alerts h (some st) input t e s).history
      = h ++ (check_alerts h (some st) input t e s).alerts) := by
  rw [check_alerts_some]
  refine ⟨?_, evalAlerts_history h st input t⟩
  have r3 : ∀ n : ℕ, List.range' n 3 = [n, n + 1, n + 2] := fun _ => rfl
  have r2 : ∀ n : ℕ, List.range' n 2 = [n, n + 1] := fun _ => rfl
  have r1 : ∀ n : ℕ, List.range' n 1 = [n] := fun _ => rfl
  have r0 : ∀ n : ℕ, List.range' n 0 = [] := fun _ => rfl
  unfold evalAlerts
  split_ifs <;>
    simp_arith [r3, r2, r1, r0, List.length_append]

/-- Settings and input used to exhibit the id reset after a clear. -/
def cexSettings : AlertSettings :=
  { email := "", phone := "", landslide_threshold := 70,
    flood_threshold := 60, rainfall_threshold := 100,
    enable_email := false, enable_sms := false, alert_location := "",
    alert_lat := none, alert_lng := none }

/-- A reading that fires exactly the landslide alert under `cexSettings`. -/
def cexInput : CheckInput :=
  { landslide_risk := 90, flood_risk := 0, rainfall := 0, location := "X" }

/-- A delivery oracle that always fails. -/
def cexOracle : String → Alert → Bool := fun _ _ => false

/-- C9 counterexample: evaluate (one alert, id 1), clear the history, and
evaluate again — the second alert also gets id 1, so ids are not
monotonically increasing over the alerts created during the process
lifetime once a clear intervenes. -/
theorem alert_id_reset_cex :
    (((check_alerts [] (some cexSettings) cexInput "t" cexOracle
          cexOracle).alerts
      ++ (check_alerts
            (clear_alert_history
              (check_alerts [] (some cexSettings) cexInput "t" cexOracle
                cexOracle).history)
            (some cexSettings) cexInput "t" cexOracle cexOracle).alerts).map
        (fun a => a.id) = [1, 1])
    ∧ ¬ List.Pairwise (· < ·)
        (((check_alerts [] (some cexSettings) cexInput "t" cexOracle
            cexOracle).alerts
          ++ (check_alerts
                (clear_alert_history
                  (check_alerts [] (some cexSettings) cexInput "t" cexOracle
                    cexOracle).history)
                (some cexSettings) cexInput "t" cexOracle
                cexOracle).alerts).map (fun a => a.id)) := by
  have h1 : (((check_alerts [] (some cexSettings) cexInput "t" cexOracle
          cexOracle).alerts
      ++ (check_alerts
            (clear_alert_history
              (check_alerts [] (some cexSettings) cexInput "t" cexOracle
                cexOracle).history)
            (some cexSettings) cexInput "t" cexOracle cexOracle).alerts).map
        (fun a => a.id)) = [1, 1] := rfl
  refine ⟨h1, ?_⟩
  rw [h1]
  decide

/-! ### Decimal representation facts, for the OTP code strings -/

/-- Horner step for reading a decimal digit string back as a number. -/
def digitStep (a : Nat) (c : Char) : Nat := 10 * a + (c.toNat - 48)

/-- `Nat.digitChar` of a decimal digit decodes back to that digit. -/
lemma digitChar_val (m : Nat) (hm : m < 10) :
    (Nat.digitChar m).toNat - 48 = m := by
  interval_cases m <;> decide

/-- The digit list produced by `Nat.toDigitsCore` in base 10 evaluates,
under the Horner fold, to the encoded number (shifted into the
accumulator). -/
lemma toDigitsCore_val :
    ∀ (fuel n a : Nat) (ds : List Char), n < fuel →
      ∃ k, 0 < k ∧ n < 10 ^ k ∧
        List.foldl digitStep a (Nat.toDigitsCore 10 fuel n ds)
          = List.foldl digitStep (a * 10 ^ k + n) ds := by
  intro fuel
  induction fuel with
  | zero => intro n a ds hfuel; exact absurd hfuel (Nat.not_lt_zero n)
  | succ fuel ih =>
      intro n a ds hfuel
      simp only [Nat.toDigitsCore]
      by_cases h0 : n / 10 = 0
      · have hn : n < 10 := by omega
        refine ⟨1, Nat.one_pos, by omega, ?_⟩
        rw [if_pos h0, List.foldl_cons]
        congr 1
        unfold digitStep
        rw [Nat.mod_eq_of_lt hn, digitChar_val n hn, pow_one]
        omega
      · have hlt : n / 10 < fuel := by omega
        obtain ⟨k, hk0, hkb, hkeq⟩ :=
          ih (n / 10) a (Nat.digitChar (n % 10) :: ds) hlt
        have hmod : n % 10 < 10 := Nat.mod_lt n (by omega)
        have hdm : 10 * (n / 10) + n % 10 = n := Nat.div_add_mod n 10
        refine ⟨k + 1, by omega, ?_, ?_⟩
        · have hp : 10 ^ (k + 1) = 10 * 10 ^ k := by ring
          omega
        · rw [if_neg h0, hkeq, List.foldl_cons]
          congr 1
          unfold digitStep
          rw [digitChar_val _ hmod]
          have hp : a * 10 ^ (k + 1) = 10 * (a * 10 ^ k) := by ring
          omega

/-- Reading back the decimal representation of `n` yields `n`. -/
lemma repr_val (n : Nat) :
    List.foldl digitStep 0 (Nat.toDigits 10 n) = n := by
  obtain ⟨k, -, -, hk⟩ :=
    toDigitsCore_val (n + 1) n 0 [] (Nat.lt_succ_self n)
  simpa [Nat.toDigits] using hk

/-- C8 counterexample: the generator is `str(randint(100000, 999999))`, so
no code with a leading zero — in particular `"000000"` — is ever produced,
refuting "every string from 000000 to 999999 is a possible code". -/
theorem otp_no_leading_zero_cex :
    ¬ ∃ seed : Nat, generate_otp seed = "000000" := by
  rintro ⟨n, hgen⟩
  have hle : 100000 ≤ randint 100000 999999 n := Nat.le_add_right _ _
  have hrepr : generate_otp n
      = (Nat.toDigits 10 (randint 100000 999999 n)).asString := rfl
  rw [hrepr] at hgen
  have hdata : Nat.toDigits 10 (randint 100000 999999 n)
      = "000000".data := by
    have hd := congrArg String.data hgen
    simpa [List.asString] using hd
  have hval := repr_val (randint 100000 999999 n)
  rw [hdata] at hval
  have hzero : List.foldl digitStep 0 "000000".data = 0 := by decide
  rw [hzero] at hval
  omega

/-- C8 (amended): issuance with a non-empty phone stores a fresh record
with expiry `now + 10` minutes, unconditionally overwriting any prior
record; the code is the decimal string of a value ranging over exactly
100000..999999 (every such value reachable, so six digits with no leading
zero); an empty phone yields the `emptyPhone` error result and an
unconfigured SMS provider the distinct `providerUnconfigured` error
result. -/
theorem issue_otp_amended (storage : Option OtpRecord) (phone : String)
    (now : ℚ) (seed : Nat) (cfg : TwilioConfig) (ok : Bool) :
    (send_verification_otp storage "" now seed cfg ok
      = (.emptyPhone, storage))
    ∧ (phone ≠ "" →
        (send_verification_otp storage phone now seed cfg ok).2
          = some { phone := phone, otp := generate_otp seed,
                   expiry := now + 10, verified := false })
    ∧ (phone ≠ "" → twilioConfigured cfg = false →
        (send_verification_otp storage phone now seed cfg ok).1
          = .providerUnconfigured)
    ∧ IssueResult.providerUnconfigured ≠ IssueResult.emptyPhone
    ∧ (100000 ≤ randint 100000 999999 seed
        ∧ randint 100000 999999 seed ≤ 999999
        ∧ generate_otp seed = toString (randint 100000 999999 seed))
    ∧ (∀ v, 100000 ≤ v → v ≤ 999999 →
        randint 100000 999999 (v - 100000) = v) := by
  refine ⟨rfl, fun hp => ?_, fun hp hc => ?_, by decide,
    ⟨by unfold randint; omega, by unfold randint; omega, rfl⟩,
    fun v h1 h2 => by unfold randint; omega⟩
  · unfold send_verification_otp
    rw [if_neg hp]
    split_ifs <;> rfl
  · unfold send_verification_otp
    rw [if_neg hp]
    simp [hc]

/-- A previously verified OTP record, to be overwritten by re-issuance. -/
def priorRecord : OtpRecord :=
  { phone := "111", otp := "222222", expiry := 99, verified := true }

/-- A Twilio configuration with all credentials missing. -/
def emptyTwilio : TwilioConfig := { sid := "", token := "", phone := "" }

/-- Witness for C8: issuance over a verified prior record, with Twilio
unconfigured, at seed 42. -/
theorem issue_otp_amended_witness :
    (send_verification_otp (some priorRecord) "" 0 42 emptyTwilio false
      = (.emptyPhone, some priorRecord))
    ∧ ((send_verification_otp (some priorRecord) "9163615366" 0 42
          emptyTwilio false).2
        = some { phone := "9163615366", otp := generate_otp 42,
                 expiry := 0 + 10, verified := false })
    ∧ ((send_verification_otp (some priorRecord) "9163615366" 0 42
          emptyTwilio false).1 = .providerUnconfigured)
    ∧ randint 100000 999999 (123456 - 100000) = 123456 :=
  ⟨(issue_otp_amended (some priorRecord) "9163615366" 0 42 emptyTwilio
      false).1,
   (issue_otp_amended (some priorRecord) "9163615366" 0 42 emptyTwilio
      false).2.1 (by decide),
   (issue_otp_amended (some priorRecord) "9163615366" 0 42 emptyTwilio
      false).2.2.1 (by decide) rfl,
   (issue_otp_amended (some priorRecord) "9163615366" 0 42 emptyTwilio
      false).2.2.2.2.2 123456 (by decide) (by decide)⟩

/-- C10: issuance is not atomic with delivery: with a non-empty phone the
fresh unverified record is stored before the provider is consulted, so the
stored state does not depend on the prior record or on the provider
outcome, and even an error result (`providerUnconfigured`, `sendFailed`)
leaves the user's record replaced, losing any prior verified status. -/
theorem issue_overwrites_before_send (storage : Option OtpRecord)
    (phone : String) (now : ℚ) (seed : Nat) (cfg : TwilioConfig)
    (ok : Bool) :
    phone ≠ "" →
      ((send_verification_otp storage phone now seed cfg ok).2
        = some { phone := phone, otp := generate_otp seed,
                 expiry := now + 10, verified := false })
      ∧ (∀ prior : OtpRecord,
          (send_verification_otp (some prior) phone now seed cfg ok).2
            = (send_verification_otp none phone now seed cfg ok).2)
      ∧ (twilioConfigured cfg = false →
          (send_verification_otp storage phone now seed cfg ok).1
            = .providerUnconfigured)
      ∧ (twilioConfigured cfg = true → ok = false →
          (send_verification_otp storage phone now seed cfg ok).1
            = .sendFailed) := by
  intro hp
  have hstore : ∀ (st : Option OtpRecord),
      (send_verification_otp st phone now seed cfg ok).2
        = some { phone := phone, otp := generate_otp seed,
                 expiry := now + 10, verified := false } := by
    intro st
    unfold send_verification_otp
    rw [if_neg hp]
    split_ifs <;> rfl
  refine ⟨hstore storage, fun prior => ?_, fun hc => ?_, fun hc hok => ?_⟩
  · rw [hstore (some prior), hstore none]
  · unfold send_verification_otp
    rw [if_neg hp]
    simp [hc]
  · unfold send_verification_otp
    rw [if_neg hp]
    simp [hc, hok]

/-- Witness for C10: re-issuing over a verified record with Twilio
unconfigured still replaces the record with a fresh unverified one while
returning the provider error. -/
theorem issue_overwrites_before_send_witness :
    ((send_verification_otp (some priorRecord) "777" 5 7 emptyTwilio
        false).2
      = some { phone := "777", otp := generate_otp 7, expiry := 5 + 10,
               verified := false })
    ∧ ((send_verification_otp (some priorRecord) "777" 5 7 emptyTwilio
        false).1 = .providerUnconfigured) :=
  ⟨(issue_overwrites_before_send (some priorRecord) "777" 5 7 emptyTwilio
      false (by decide)).1,
   (issue_overwrites_before_send (some priorRecord) "777" 5 7 emptyTwilio
      false (by decide)).2.2.1 rfl⟩

end Kavach
